import Mathlib

/-!
Verification of the safe comparison engine of `hyperion/platform/compare.h`.

The floating-point values of the source are modelled by `EF`: NaN, signed
infinities, and finite values carried as exact rationals, with additions,
subtractions and multiplications saturating to infinity past the largest
finite magnitude `Fmax` (the IEEE-754 overflow behaviour, with exact
arithmetic below the threshold).  The integer types of the source are
modelled by `IntTy` (type descriptors for `i32`, `u32`, `i64`, `u64`)
together with mathematical integers; C++ conversions and the usual
arithmetic conversions are made explicit.  The six comparison predicates
are translated branch for branch from the source, including the dispatch
on operand kinds.
-/

namespace HyperionCompare

/-- The largest finite magnitude of the modelled floating-point type
(`2 ^ 128`, the order of `FLT_MAX`); arithmetic past it saturates to
infinity, as IEEE-754 overflow does. -/
def Fmax : ℚ := 340282366920938463463374607431768211456

/-- A floating-point value: NaN, an infinity (`true` means negative), or a
finite value carried as an exact rational. -/
inductive EF where
  | nan : EF
  | inf : Bool → EF
  | fin : ℚ → EF
deriving DecidableEq

/-- `std::isnan`. -/
def EF.isnan : EF → Bool
  | .nan => true
  | _ => false

/-- `std::isinf`. -/
def EF.isinf : EF → Bool
  | .inf _ => true
  | _ => false

/-- `std::signbit` (NaN is modelled with a clear sign bit). -/
def EF.signbit : EF → Bool
  | .nan => false
  | .inf s => s
  | .fin q => decide (q < 0)

/-- IEEE negation. -/
def EF.neg : EF → EF
  | .nan => .nan
  | .inf s => .inf (!s)
  | .fin q => .fin (-q)

/-- Clamp an exact rational result into the float model: overflow past
`Fmax` saturates to the correspondingly signed infinity. -/
def EF.ofRat (q : ℚ) : EF :=
  if Fmax < q then .inf false
  else if q < -Fmax then .inf true
  else .fin q

/-- IEEE addition on the model. -/
def EF.add : EF → EF → EF
  | .nan, _ => .nan
  | _, .nan => .nan
  | .inf s, .inf t => if s = t then .inf s else .nan
  | .inf s, .fin _ => .inf s
  | .fin _, .inf t => .inf t
  | .fin a, .fin b => EF.ofRat (a + b)

/-- IEEE subtraction on the model (`x - y = x + (-y)`). -/
def EF.sub (a b : EF) : EF := EF.add a (EF.neg b)

/-- IEEE multiplication on the model (`0 * inf = NaN`). -/
def EF.mul : EF → EF → EF
  | .nan, _ => .nan
  | _, .nan => .nan
  | .inf s, .inf t => .inf (xor s t)
  | .inf s, .fin b => if b = 0 then .nan else .inf (xor s (decide (b < 0)))
  | .fin a, .inf t => if a = 0 then .nan else .inf (xor (decide (a < 0)) t)
  | .fin a, .fin b => EF.ofRat (a * b)

/-- The `<` operator of the source's floating type: false whenever either
side is NaN, the usual order otherwise. -/
def EF.lt : EF → EF → Bool
  | .nan, _ => false
  | _, .nan => false
  | .inf s, .inf t => s && !t
  | .inf s, .fin _ => s
  | .fin _, .inf t => !t
  | .fin a, .fin b => decide (a < b)

/-- The `<=` operator of the source's floating type. -/
def EF.le : EF → EF → Bool
  | .nan, _ => false
  | _, .nan => false
  | .inf s, .inf t => s || !t
  | .inf s, .fin _ => s
  | .fin _, .inf t => !t
  | .fin a, .fin b => decide (a ≤ b)

/-- The `>` operator of the source's floating type. -/
def EF.gt (a b : EF) : Bool := EF.lt b a

/-- The `>=` operator of the source's floating type. -/
def EF.ge (a b : EF) : Bool := EF.le b a

/-- A value is within the representable range of the model (its finite
component does not exceed `Fmax` in magnitude). -/
def EF.bounded : EF → Bool
  | .fin a => decide (|a| ≤ Fmax)
  | _ => true

/-- `EpsilonType` from the source: either a fixed magnitude difference
(`Absolute`) or a percentage magnitude difference (`Relative`). -/
inductive EpsilonType where
  | Absolute : EpsilonType
  | Relative : EpsilonType
deriving DecidableEq

/-- `detail::abs` from the source: `std::signbit(value) ? -value : value`. -/
def detailAbs (value : EF) : EF := if value.signbit then value.neg else value

/-- `detail::max` from the source: `lhs < rhs ? rhs : lhs`. -/
def detailMax (lhs rhs : EF) : EF := if EF.lt lhs rhs then rhs else lhs

/-- The `Epsilon` class of the source: an `EpsilonType` together with the
stored magnitude `m_epsilon`. -/
structure Epsilon where
  kind : EpsilonType
  m : EF
deriving DecidableEq

/-- `Epsilon::epsilon(lhs, rhs)` from the source: the stored magnitude for
an `Absolute` epsilon; for a `Relative` epsilon, the stored magnitude
times `detail::max(detail::abs(lhs), detail::abs(rhs))`. -/
def Epsilon.epsilon (e : Epsilon) (lhs rhs : EF) : EF :=
  match e.kind with
  | .Absolute => e.m
  | .Relative => EF.mul e.m (detailMax (detailAbs lhs) (detailAbs rhs))

/-- `Epsilon::value()` from the source. -/
def Epsilon.value (e : Epsilon) : EF := e.m

/-- `detail::safe_float_equality` from the source: compare `|lhs - rhs|`
against the error, falling back to a two-sided bound check when the direct
difference overflows to infinity or is NaN. -/
def safe_float_equality (lhs rhs error : EF) : Bool :=
  let diff := EF.sub lhs rhs
  if diff.isinf || diff.isnan then
    let lower_bound := EF.sub rhs error
    let upper_bound := EF.add rhs error
    EF.ge lhs lower_bound && EF.le lhs upper_bound
  else
    EF.le (detailAbs diff) error

/-- `detail::safe_float_inequality` from the source: compare `|lhs - rhs|`
against the error, falling back to a negated two-sided bound check when the
direct difference overflows to infinity or is NaN. -/
def safe_float_inequality (lhs rhs error : EF) : Bool :=
  let diff := EF.sub lhs rhs
  if diff.isinf || diff.isnan then
    let lower_bound := EF.sub rhs error
    let upper_bound := EF.add rhs error
    EF.lt lhs lower_bound || EF.gt lhs upper_bound
  else
    EF.gt (detailAbs diff) error

/-- The integer type descriptors of the model: 32- and 64-bit signed and
unsigned integers. -/
inductive IntTy where
  | i32 : IntTy
  | u32 : IntTy
  | i64 : IntTy
  | u64 : IntTy
deriving DecidableEq

/-- Bit width of an integer type. -/
def IntTy.bits : IntTy → ℕ
  | .i32 => 32
  | .u32 => 32
  | .i64 => 64
  | .u64 => 64

/-- `std::is_signed_v`. -/
def IntTy.isSigned : IntTy → Bool
  | .i32 => true
  | .i64 => true
  | _ => false

/-- Whether an integer value is representable in the given type. -/
def IntTy.inRange (t : IntTy) (v : ℤ) : Bool :=
  if t.isSigned then decide (-(2 ^ (t.bits - 1)) ≤ v ∧ v < 2 ^ (t.bits - 1))
  else decide (0 ≤ v ∧ v < 2 ^ t.bits)

/-- `static_cast` to an integer type: C++20 modular (two's complement)
conversion semantics. -/
def castTo (t : IntTy) (v : ℤ) : ℤ :=
  if t.isSigned then (v + 2 ^ (t.bits - 1)) % 2 ^ t.bits - 2 ^ (t.bits - 1)
  else v % 2 ^ t.bits

/-- The usual arithmetic conversions of C++ for a pair of integer types:
same signedness picks the wider type; mixed signedness picks the unsigned
type when its rank is at least the signed type's, otherwise the signed type
(which, for these widths, represents every value of the narrower unsigned
type). -/
def uac (a b : IntTy) : IntTy :=
  if a.isSigned = b.isSigned then (if b.bits ≤ a.bits then a else b)
  else
    let s := if a.isSigned then a else b
    let u := if a.isSigned then b else a
    if s.bits ≤ u.bits then u else s

/-- The built-in `==` between two integer operands: both are converted to
the common type of the usual arithmetic conversions and compared there. -/
def nativeEq (tl tr : IntTy) (lhs rhs : ℤ) : Bool :=
  let c := uac tl tr
  decide (castTo c lhs = castTo c rhs)

/-- The built-in `<` between two integer operands under the usual
arithmetic conversions. -/
def nativeLt (tl tr : IntTy) (lhs rhs : ℤ) : Bool :=
  let c := uac tl tr
  decide (castTo c lhs < castTo c rhs)

/-- The built-in `<=` between two integer operands under the usual
arithmetic conversions. -/
def nativeLe (tl tr : IntTy) (lhs rhs : ℤ) : Bool :=
  let c := uac tl tr
  decide (castTo c lhs ≤ castTo c rhs)

/-- `std::signbit` applied to an integer operand (converted to floating
point first, preserving the sign). -/
def intSignbit (v : ℤ) : Bool := decide (v < 0)

/-- An arithmetic operand: an integer value of one of the modelled integer
types, or a floating-point value.  (All floating widths are represented by
the single model type `EF`, playing the role of the common floating type
the source casts to.) -/
inductive AValue where
  | intV : IntTy → ℤ → AValue
  | floatV : EF → AValue
deriving DecidableEq

/-- The floating-point image of an operand (`static_cast<fmax>` for
integers, which is exact for the modelled widths). -/
def AValue.toEF : AValue → EF
  | .intV _ v => .fin v
  | .floatV x => x

/-- Whether an operand is a finite value (integers always are; floats must
not be NaN or infinite). -/
def AValue.isFinite : AValue → Bool
  | .intV _ _ => true
  | .floatV (.fin _) => true
  | .floatV _ => false

/-- The integer/integer branch of `equality_compare` (compare.h:408-426),
faithful to the source: the first sub-branch handles a signed lhs against
an unsigned rhs; the second sub-branch's condition is the source's
`std::is_signed_v<rhs_t> && !std::is_signed_v<rhs_t>` — `rhs_t` twice —
which is always false, so an unsigned lhs against a signed rhs falls
through to the built-in `==`. -/
def eqInt (tl tr : IntTy) (lhs rhs : ℤ) : Bool :=
  if tl.isSigned && !tr.isSigned then
    if intSignbit lhs then false
    else decide (castTo tr lhs = rhs)
  else if tr.isSigned && !tr.isSigned then
    if intSignbit rhs then false
    else decide (lhs = castTo tl rhs)
  else nativeEq tl tr lhs rhs

/-- The floating/floating branch of `equality_compare` (compare.h:439-445):
NaN or infinite operands are never equal; otherwise the epsilon for the
pair is computed and `detail::safe_float_equality` decides. -/
def eqFloat (lhs rhs : EF) (epsilon : Epsilon) : Bool :=
  if lhs.isnan || lhs.isinf || rhs.isnan || rhs.isinf then false
  else safe_float_equality lhs rhs (epsilon.epsilon lhs rhs)

/-- `equality_compare` from the source: dispatch on the operand kinds,
widening an integer paired with a float to the maximal floating type. -/
def equality_compare (lhs rhs : AValue) (epsilon : Epsilon) : Bool :=
  match lhs, rhs with
  | .intV tl l, .intV tr r => eqInt tl tr l r
  | .intV _ l, .floatV r => eqFloat (.fin l) r epsilon
  | .floatV l, .intV _ r => eqFloat l (.fin r) epsilon
  | .floatV l, .floatV r => eqFloat l r epsilon

/-- The integer/integer branch of `inequality_compare` (compare.h:506-524),
with the same always-false second sub-branch condition as `eqInt`
(`std::is_signed_v<rhs_t> && !std::is_signed_v<rhs_t>` in the source). -/
def neInt (tl tr : IntTy) (lhs rhs : ℤ) : Bool :=
  if tl.isSigned && !tr.isSigned then
    if intSignbit lhs then true
    else decide (castTo tr lhs ≠ rhs)
  else if tr.isSigned && !tr.isSigned then
    if intSignbit rhs then true
    else decide (lhs ≠ castTo tl rhs)
  else !nativeEq tl tr lhs rhs

/-- The floating/floating branch of `inequality_compare`
(compare.h:537-543): NaN or infinite operands are always unequal;
otherwise `detail::safe_float_inequality` decides. -/
def neFloat (lhs rhs : EF) (epsilon : Epsilon) : Bool :=
  if lhs.isnan || lhs.isinf || rhs.isnan || rhs.isinf then true
  else safe_float_inequality lhs rhs (epsilon.epsilon lhs rhs)

/-- `inequality_compare` from the source. -/
def inequality_compare (lhs rhs : AValue) (epsilon : Epsilon) : Bool :=
  match lhs, rhs with
  | .intV tl l, .intV tr r => neInt tl tr l r
  | .intV _ l, .floatV r => neFloat (.fin l) r epsilon
  | .floatV l, .intV _ r => neFloat l (.fin r) epsilon
  | .floatV l, .floatV r => neFloat l r epsilon

/-- The integer/integer branch of `less_than_compare` (compare.h:605-623);
here the second sub-branch's condition is written correctly in the source
(`std::is_signed_v<rhs_t> && !std::is_signed_v<lhs_t>`). -/
def ltInt (tl tr : IntTy) (lhs rhs : ℤ) : Bool :=
  if tl.isSigned && !tr.isSigned then
    if intSignbit lhs then true
    else decide (castTo tr lhs < rhs)
  else if tr.isSigned && !tl.isSigned then
    if intSignbit rhs then false
    else decide (lhs < castTo tl rhs)
  else nativeLt tl tr lhs rhs

/-- The floating/floating branch of `less_than_compare`
(compare.h:636-656): negative infinity on the left is less; negative
infinity on the right is not greater; NaN compares false; otherwise
`lhs < rhs - error` in the common type. -/
def ltFloat (lhs rhs : EF) (epsilon : Epsilon) : Bool :=
  if lhs.isinf && lhs.signbit then true
  else if rhs.isinf && rhs.signbit then false
  else if lhs.isnan || rhs.isnan then false
  else EF.lt lhs (EF.sub rhs (epsilon.epsilon lhs rhs))

/-- `less_than_compare` from the source. -/
def less_than_compare (lhs rhs : AValue) (epsilon : Epsilon) : Bool :=
  match lhs, rhs with
  | .intV tl l, .intV tr r => ltInt tl tr l r
  | .intV _ l, .floatV r => ltFloat (.fin l) r epsilon
  | .floatV l, .intV _ r => ltFloat l (.fin r) epsilon
  | .floatV l, .floatV r => ltFloat l r epsilon

/-- The integer/integer branch of `less_than_or_equal_compare`
(compare.h:720-738). -/
def leInt (tl tr : IntTy) (lhs rhs : ℤ) : Bool :=
  if tl.isSigned && !tr.isSigned then
    if intSignbit lhs then true
    else decide (castTo tr lhs ≤ rhs)
  else if tr.isSigned && !tl.isSigned then
    if intSignbit rhs then false
    else decide (lhs ≤ castTo tl rhs)
  else nativeLe tl tr lhs rhs

/-- The floating/floating branch of `less_than_or_equal_compare`
(compare.h:750-771): the infinity/NaN short-circuits of `less_than`, then
`lhs < rhs - error` OR `detail::safe_float_equality`. -/
def leFloat (lhs rhs : EF) (epsilon : Epsilon) : Bool :=
  if lhs.isinf && lhs.signbit then true
  else if rhs.isinf && rhs.signbit then false
  else if lhs.isnan || rhs.isnan then false
  else
    let error := epsilon.epsilon lhs rhs
    EF.lt lhs (EF.sub rhs error) || safe_float_equality lhs rhs error

/-- `less_than_or_equal_compare` from the source. -/
def less_than_or_equal_compare (lhs rhs : AValue) (epsilon : Epsilon) : Bool :=
  match lhs, rhs with
  | .intV tl l, .intV tr r => leInt tl tr l r
  | .intV _ l, .floatV r => leFloat (.fin l) r epsilon
  | .floatV l, .intV _ r => leFloat l (.fin r) epsilon
  | .floatV l, .floatV r => leFloat l r epsilon

/-- The integer/integer branch of `greater_than_compare`
(compare.h:833-851). -/
def gtInt (tl tr : IntTy) (lhs rhs : ℤ) : Bool :=
  if tl.isSigned && !tr.isSigned then
    if intSignbit lhs then false
    else decide (rhs < castTo tr lhs)
  else if tr.isSigned && !tl.isSigned then
    if intSignbit rhs then true
    else decide (castTo tl rhs < lhs)
  else nativeLt tl tr rhs lhs

/-- The floating/floating branch of `greater_than_compare`
(compare.h:864-883): negative infinity on the left is never greater;
negative infinity on the right always is; NaN compares false; otherwise
`lhs - error > rhs` in the common type. -/
def gtFloat (lhs rhs : EF) (epsilon : Epsilon) : Bool :=
  if lhs.isinf && lhs.signbit then false
  else if rhs.isinf && rhs.signbit then true
  else if lhs.isnan || rhs.isnan then false
  else EF.gt (EF.sub lhs (epsilon.epsilon lhs rhs)) rhs

/-- `greater_than_compare` from the source. -/
def greater_than_compare (lhs rhs : AValue) (epsilon : Epsilon) : Bool :=
  match lhs, rhs with
  | .intV tl l, .intV tr r => gtInt tl tr l r
  | .intV _ l, .floatV r => gtFloat (.fin l) r epsilon
  | .floatV l, .intV _ r => gtFloat l (.fin r) epsilon
  | .floatV l, .floatV r => gtFloat l r epsilon

/-- The integer/integer branch of `greater_than_or_equal_compare`
(compare.h:947-965). -/
def geInt (tl tr : IntTy) (lhs rhs : ℤ) : Bool :=
  if tl.isSigned && !tr.isSigned then
    if intSignbit lhs then false
    else decide (rhs ≤ castTo tr lhs)
  else if tr.isSigned && !tl.isSigned then
    if intSignbit rhs then true
    else decide (castTo tl rhs ≤ lhs)
  else nativeLe tl tr rhs lhs

/-- The floating/floating branch of `greater_than_or_equal_compare`
(compare.h:977-998): the short-circuits of `greater_than`, then
`lhs - error > rhs` OR `detail::safe_float_equality`. -/
def geFloat (lhs rhs : EF) (epsilon : Epsilon) : Bool :=
  if lhs.isinf && lhs.signbit then false
  else if rhs.isinf && rhs.signbit then true
  else if lhs.isnan || rhs.isnan then false
  else
    let error := epsilon.epsilon lhs rhs
    EF.gt (EF.sub lhs error) rhs || safe_float_equality lhs rhs error

/-- `greater_than_or_equal_compare` from the source. -/
def greater_than_or_equal_compare (lhs rhs : AValue) (epsilon : Epsilon) : Bool :=
  match lhs, rhs with
  | .intV tl l, .intV tr r => geInt tl tr l r
  | .intV _ l, .floatV r => geFloat (.fin l) r epsilon
  | .floatV l, .intV _ r => geFloat l (.fin r) epsilon
  | .floatV l, .floatV r => geFloat l r epsilon

/-- A concrete absolute epsilon of magnitude `1/1000`, used for concrete
instances. -/
def epsAbsSmall : Epsilon := ⟨.Absolute, .fin (1/1000)⟩

/-- A concrete absolute epsilon whose stored magnitude is NaN. -/
def epsNaN : Epsilon := ⟨.Absolute, .nan⟩

/-- Written from the spec's words for claim C8: "if `lhs` is `-Infinity`,
return `true`; else if `rhs` is `-Infinity`, return `false`; if either is
NaN, return `false`; otherwise return `lhs < rhs - effective_epsilon`",
where the effective epsilon is the epsilon computed for `lhs` and `rhs`. -/
def less_than_spec_rule (lhs rhs : EF) (epsilon : Epsilon) : Bool :=
  if lhs = .inf true then true
  else if rhs = .inf true then false
  else if lhs.isnan || rhs.isnan then false
  else EF.lt lhs (EF.sub rhs (epsilon.epsilon lhs rhs))

/-- Written from the spec's words for claim C9: absolute value of a
floating-point value. -/
def abs_spec : EF → EF
  | .nan => .nan
  | .inf _ => .inf false
  | .fin q => .fin |q|

/-- Written from the spec's words for claim C9: the larger of two
floating-point values. -/
def max_spec (a b : EF) : EF := if EF.le a b then b else a

/-- Written from the spec's words for claim C9: `epsilon_for(lhs, rhs)`
returns the stored magnitude unchanged for `Absolute`, and
`magnitude * max(abs(lhs), abs(rhs))` for `Relative`. -/
def epsilon_for_spec (e : Epsilon) (lhs rhs : EF) : EF :=
  match e.kind with
  | .Absolute => e.m
  | .Relative => EF.mul e.m (max_spec (abs_spec lhs) (abs_spec rhs))

lemma detailAbs_eq_abs_spec (v : EF) : detailAbs v = abs_spec v := by
  cases v with
  | nan => rfl
  | inf s => cases s <;> rfl
  | fin q =>
    by_cases h : q < 0
    · simp [detailAbs, abs_spec, EF.signbit, EF.neg, h, abs_of_neg h]
    · simp [detailAbs, abs_spec, EF.signbit, EF.neg, h, abs_of_nonneg (le_of_not_lt h)]

lemma detailMax_eq_max_spec (a b : EF) : detailMax a b = max_spec a b := by
  cases a with
  | nan => cases b <;> rfl
  | inf s =>
    cases b with
    | nan => cases s <;> rfl
    | inf t => cases s <;> cases t <;> rfl
    | fin y => cases s <;> rfl
  | fin x =>
    cases b with
    | nan => rfl
    | inf t => cases t <;> rfl
    | fin y =>
      rcases lt_trichotomy x y with h | h | h
      · simp [detailMax, max_spec, EF.lt, EF.le, h, le_of_lt h]
      · subst h
        simp [detailMax, max_spec, EF.lt, EF.le]
      · simp [detailMax, max_spec, EF.lt, EF.le, not_lt_of_gt h, not_le_of_gt h]

/-- C9: `Epsilon::epsilon(lhs, rhs)` returns the stored magnitude
unchanged when the kind is `Absolute`, and the stored magnitude times
`max(abs(lhs), abs(rhs))` when the kind is `Relative`, for every pair of
operands. -/
theorem C9_epsilon_for (e : Epsilon) (l r : EF) :
    e.epsilon l r = epsilon_for_spec e l r := by
  cases e with
  | mk kind m =>
    cases kind with
    | Absolute => rfl
    | Relative =>
      simp [Epsilon.epsilon, epsilon_for_spec, detailAbs_eq_abs_spec, detailMax_eq_max_spec]

/-- C8: on floating-point operands, `less_than_compare` follows exactly
the rule: `lhs = -Inf` gives `true`; else `rhs = -Inf` gives `false`; else
a NaN operand gives `false`; otherwise the result of
`lhs < rhs - effective_epsilon`. -/
theorem C8_less_than_rule (l r : EF) (eps : Epsilon) :
    less_than_compare (.floatV l) (.floatV r) eps = less_than_spec_rule l r eps := by
  cases l with
  | nan =>
    cases r with
    | nan => rfl
    | inf t => cases t <;> rfl
    | fin y => rfl
  | inf s =>
    cases r with
    | nan => cases s <;> rfl
    | inf t => cases s <;> cases t <;> rfl
    | fin y => cases s <;> rfl
  | fin x =>
    cases r with
    | nan => rfl
    | inf t => cases t <;> rfl
    | fin y => rfl

/-- C7: for floating-point operands, whenever either operand is NaN or an
infinity, `equality_compare` returns `false` and `inequality_compare`
returns `true`, for every epsilon. -/
theorem C7_nan_inf_policy (l r : EF) (eps : Epsilon)
    (h : (l.isnan || l.isinf || r.isnan || r.isinf) = true) :
    equality_compare (.floatV l) (.floatV r) eps = false ∧
    inequality_compare (.floatV l) (.floatV r) eps = true := by
  constructor <;> simp [equality_compare, inequality_compare, eqFloat, neFloat, h]

theorem C7_nan_inf_policy_witness :
    ((EF.nan.isnan || EF.nan.isinf || (EF.fin 0).isnan || (EF.fin 0).isinf) = true) ∧
    (equality_compare (.floatV .nan) (.floatV (.fin 0)) epsAbsSmall = false ∧
     inequality_compare (.floatV .nan) (.floatV (.fin 0)) epsAbsSmall = true) :=
  ⟨by decide, C7_nan_inf_policy .nan (.fin 0) epsAbsSmall (by decide)⟩

/-- C5: with the signed operand on the left holding a negative value and
any unsigned value on the right, `equality_compare` returns `false`,
`less_than_compare` returns `true`, and `greater_than_compare` returns
`false`. -/
theorem C5_sign_safety (st ut : IntTy) (s u : ℤ) (eps : Epsilon)
    (hst : st.isSigned = true) (hut : ut.isSigned = false)
    (_hs : st.inRange s = true) (_hu : ut.inRange u = true) (hneg : s < 0) :
    equality_compare (.intV st s) (.intV ut u) eps = false ∧
    less_than_compare (.intV st s) (.intV ut u) eps = true ∧
    greater_than_compare (.intV st s) (.intV ut u) eps = false := by
  refine ⟨?_, ?_, ?_⟩ <;>
    simp [equality_compare, less_than_compare, greater_than_compare, eqInt, ltInt, gtInt,
      hst, hut, intSignbit, hneg]

theorem C5_sign_safety_witness :
    (IntTy.i32.isSigned = true ∧ IntTy.u32.isSigned = false ∧
     IntTy.i32.inRange (-1) = true ∧ IntTy.u32.inRange 5 = true ∧ (-1 : ℤ) < 0) ∧
    (equality_compare (.intV .i32 (-1)) (.intV .u32 5) epsAbsSmall = false ∧
     less_than_compare (.intV .i32 (-1)) (.intV .u32 5) epsAbsSmall = true ∧
     greater_than_compare (.intV .i32 (-1)) (.intV .u32 5) epsAbsSmall = false) :=
  ⟨by decide,
   C5_sign_safety .i32 .u32 (-1) 5 epsAbsSmall (by decide) (by decide) (by decide)
     (by decide) (by decide)⟩

/-- C3: symmetry of `equality_compare` fails on the code for an unsigned
left operand against a negative signed right operand of equal rank: the
source's second integer sub-branch tests `is_signed_v<rhs_t>` against its
own negation (a typo for `lhs_t`), so `equality_compare(u32, i32)` falls
through to the built-in `==`, which wraps `-1` to `4294967295`. -/
theorem C3_symmetry_failure :
    equality_compare (.intV .u32 4294967295) (.intV .i32 (-1)) epsAbsSmall = true ∧
    equality_compare (.intV .i32 (-1)) (.intV .u32 4294967295) epsAbsSmall = false := by
  decide

/-- C4: with the signed operand (holding a negative value) on the right,
`equality_compare` returns `true` and `inequality_compare` returns `false`
at `lhs = 4294967295 (u32)`, `rhs = -1 (i32)`, contrary to the claimed
sign policy, because the dedicated sub-branch is dead (its condition is
the always-false `is_signed_v<rhs_t> && !is_signed_v<rhs_t>`). -/
theorem C4_signed_rhs_failure :
    equality_compare (.intV .u32 4294967295) (.intV .i32 (-1)) epsAbsSmall = true ∧
    inequality_compare (.intV .u32 4294967295) (.intV .i32 (-1)) epsAbsSmall = false := by
  decide

/-- C1: evaluation of the code at the failing input `x = y = +Infinity`
(non-NaN values): none of the three predicates holds — `equality_compare`
short-circuits on `isinf`, `less_than_compare` computes `Inf < Inf - eps`,
and `greater_than_compare` computes `Inf - eps > Inf` — so the code
violates the trichotomy the spec declares authoritative.  (This trace
involves no rounding, so it carries to the IEEE program verbatim; with
rounding the program also violates trichotomy at finite inputs such as
`lhs = 1 + 2^-52`, `rhs = 1`, absolute epsilon `2^-53`, where
`lhs - eps` rounds ties-to-even back to `1.0`.) -/
theorem C1_trichotomy_violation :
    equality_compare (.floatV (.inf false)) (.floatV (.inf false)) epsAbsSmall = false ∧
    less_than_compare (.floatV (.inf false)) (.floatV (.inf false)) epsAbsSmall = false ∧
    greater_than_compare (.floatV (.inf false)) (.floatV (.inf false)) epsAbsSmall = false := by
  decide

/-- C2 counterexample: at `lhs = rhs = +Infinity`,
`less_than_or_equal_compare` returns `true` (its `safe_float_equality`
fallback sees `Inf - Inf = NaN` and then `Inf` lies inside the bounds
`Inf ± eps`), while both `less_than_compare` and `equality_compare` return
`false`, so the claimed equivalence fails as stated. -/
theorem C2_counterexample :
    less_than_or_equal_compare (.floatV (.inf false)) (.floatV (.inf false)) epsAbsSmall
      = true ∧
    less_than_compare (.floatV (.inf false)) (.floatV (.inf false)) epsAbsSmall = false ∧
    equality_compare (.floatV (.inf false)) (.floatV (.inf false)) epsAbsSmall = false := by
  decide

/-- C6 counterexample: `equality_compare(+Inf, +Inf)` returns `false`, so
reflexivity does not extend to the infinities. -/
theorem C6_counterexample :
    equality_compare (.floatV (.inf false)) (.floatV (.inf false)) epsAbsSmall = false := by
  decide

lemma Fmax_pos : (0 : ℚ) < Fmax := by norm_num [Fmax]

lemma ofRat_fin {z : ℚ} (h1 : z ≤ Fmax) (h2 : -Fmax ≤ z) : EF.ofRat z = .fin z := by
  unfold EF.ofRat
  rw [if_neg (not_lt.mpr h1), if_neg (not_lt.mpr h2)]

lemma sub_fin_fin (a b : ℚ) : EF.sub (.fin a) (.fin b) = EF.ofRat (a - b) := by
  rw [sub_eq_add_neg]
  rfl

lemma ofRat_isnan (z : ℚ) : (EF.ofRat z).isnan = false := by
  unfold EF.ofRat
  split_ifs <;> rfl

lemma sub_fin_isnan (b : ℚ) (e : EF) (h : e.isnan = false) :
    (EF.sub (.fin b) e).isnan = false := by
  cases e with
  | nan => simp [EF.isnan] at h
  | inf s => rfl
  | fin x => rw [sub_fin_fin]; exact ofRat_isnan _

lemma add_fin_isnan (b : ℚ) (e : EF) (h : e.isnan = false) :
    (EF.add (.fin b) e).isnan = false := by
  cases e with
  | nan => simp [EF.isnan] at h
  | inf s => rfl
  | fin x => exact ofRat_isnan _

lemma lt_fin_eq_not_le (a : ℚ) (x : EF) (h : x.isnan = false) :
    EF.lt (.fin a) x = !EF.le x (.fin a) := by
  cases x with
  | nan => simp [EF.isnan] at h
  | inf t => cases t <;> rfl
  | fin y =>
    by_cases hxy : y ≤ a
    · simp [EF.lt, EF.le, hxy, not_lt.mpr hxy]
    · simp [EF.lt, EF.le, hxy, not_le.mp hxy]

lemma lt_eq_not_le_fin (x : EF) (a : ℚ) (h : x.isnan = false) :
    EF.lt x (.fin a) = !EF.le (.fin a) x := by
  cases x with
  | nan => simp [EF.isnan] at h
  | inf t => cases t <;> rfl
  | fin y =>
    by_cases hxy : a ≤ y
    · simp [EF.lt, EF.le, hxy, not_lt.mpr hxy]
    · simp [EF.lt, EF.le, hxy, not_le.mp hxy]

lemma sfi_eq_not_sfe (a b : ℚ) (err : EF) (h : err.isnan = false) :
    safe_float_inequality (.fin a) (.fin b) err
      = !safe_float_equality (.fin a) (.fin b) err := by
  simp only [safe_float_inequality, safe_float_equality]
  rw [sub_fin_fin]
  cases hd : EF.ofRat (a - b) with
  | nan =>
    have hn := ofRat_isnan (a - b)
    rw [hd] at hn
    simp [EF.isnan] at hn
  | inf s =>
    simp only [EF.isinf, EF.isnan, Bool.true_or, Bool.or_false, if_true, EF.ge, EF.gt]
    rw [lt_fin_eq_not_le a _ (sub_fin_isnan b err h),
      lt_eq_not_le_fin _ a (add_fin_isnan b err h), Bool.not_and]
  | fin d =>
    simp only [EF.isinf, EF.isnan, Bool.or_false, if_false, Bool.false_or]
    rw [detailAbs_eq_abs_spec]
    show EF.lt err (abs_spec (.fin d)) = !EF.le (abs_spec (.fin d)) err
    simp only [abs_spec]
    rw [lt_eq_not_le_fin err _ h]

lemma neFloat_eq_not_eqFloat (l r : EF) (eps : Epsilon)
    (h : (eps.epsilon l r).isnan = false) :
    neFloat l r eps = !eqFloat l r eps := by
  cases l with
  | nan => simp [neFloat, eqFloat, EF.isnan]
  | inf s => simp [neFloat, eqFloat, EF.isinf]
  | fin a =>
    cases r with
    | nan => simp [neFloat, eqFloat, EF.isnan, EF.isinf]
    | inf t => simp [neFloat, eqFloat, EF.isnan, EF.isinf]
    | fin b =>
      simp only [neFloat, eqFloat, EF.isnan, EF.isinf, Bool.or_false, Bool.false_or,
        if_false]
      exact sfi_eq_not_sfe a b _ h

lemma neInt_eq_not_eqInt (tl tr : IntTy) (l r : ℤ) :
    neInt tl tr l r = !eqInt tl tr l r := by
  unfold neInt eqInt
  cases h1 : (tl.isSigned && !tr.isSigned) with
  | true =>
    simp only [if_pos rfl]
    cases h2 : intSignbit l <;> simp [h2, decide_not]
  | false =>
    simp only [h1, Bool.false_eq_true, if_false, Bool.and_not_self]

/-- C10 (amended): `inequality_compare` is the boolean negation of
`equality_compare` for every pair of arithmetic operands and every epsilon
whose effective error for the pair is not NaN — including the NaN/Infinity
short-circuits, the mixed signed/unsigned branches (where both predicates
share the same dead sub-branch), and the difference-overflow fallback. -/
theorem C10_negation_duality (a b : AValue) (eps : Epsilon)
    (h : (eps.epsilon a.toEF b.toEF).isnan = false) :
    inequality_compare a b eps = !equality_compare a b eps := by
  cases a with
  | intV tl l =>
    cases b with
    | intV tr r => exact neInt_eq_not_eqInt tl tr l r
    | floatV r => exact neFloat_eq_not_eqFloat (.fin l) r eps h
  | floatV l =>
    cases b with
    | intV tr r => exact neFloat_eq_not_eqFloat l (.fin r) eps h
    | floatV r => exact neFloat_eq_not_eqFloat l r eps h

theorem C10_negation_duality_witness :
    ((epsAbsSmall.epsilon (AValue.floatV (.fin 0)).toEF
        (AValue.floatV (.fin 1)).toEF).isnan = false) ∧
    inequality_compare (.floatV (.fin 0)) (.floatV (.fin 1)) epsAbsSmall
      = !equality_compare (.floatV (.fin 0)) (.floatV (.fin 1)) epsAbsSmall :=
  ⟨rfl, C10_negation_duality (.floatV (.fin 0)) (.floatV (.fin 1)) epsAbsSmall rfl⟩

/-- C6 (amended): `equality_compare(x, x)` returns `true` for every finite
value `x` of any modelled arithmetic type, provided the effective epsilon
computed for the pair `(x, x)` is non-negative; reflexivity does not
extend to infinite operands. -/
theorem C6_reflexivity (x : AValue) (eps : Epsilon)
    (hfin : x.isFinite = true)
    (heps : EF.le (.fin 0) (eps.epsilon x.toEF x.toEF) = true) :
    equality_compare x x eps = true := by
  cases x with
  | intV t v =>
    show eqInt t t v v = true
    unfold eqInt
    simp [Bool.and_not_self, nativeEq]
  | floatV f =>
    cases f with
    | nan => simp [AValue.isFinite] at hfin
    | inf s => simp [AValue.isFinite] at hfin
    | fin a =>
      show eqFloat (.fin a) (.fin a) eps = true
      simp only [eqFloat, EF.isnan, EF.isinf, Bool.or_false, if_false,
        safe_float_equality]
      rw [sub_fin_fin]
      have hz : EF.ofRat (a - a) = .fin 0 := by
        rw [sub_self]
        exact ofRat_fin (le_of_lt Fmax_pos) (by linarith [Fmax_pos])
      rw [hz]
      simp only [EF.isinf, EF.isnan, Bool.or_false, if_false]
      have habs : detailAbs (.fin 0) = .fin 0 := by
        rw [detailAbs_eq_abs_spec]
        simp [abs_spec]
      rw [habs]
      exact heps

theorem C6_reflexivity_witness :
    ((AValue.floatV (.fin 1)).isFinite = true ∧
     EF.le (.fin 0) (epsAbsSmall.epsilon (AValue.floatV (.fin 1)).toEF
       (AValue.floatV (.fin 1)).toEF) = true) ∧
    equality_compare (.floatV (.fin 1)) (.floatV (.fin 1)) epsAbsSmall = true :=
  ⟨⟨rfl, by norm_num [epsAbsSmall, Epsilon.epsilon, AValue.toEF, EF.le]⟩,
   C6_reflexivity (.floatV (.fin 1)) epsAbsSmall rfl
     (by norm_num [epsAbsSmall, Epsilon.epsilon, AValue.toEF, EF.le])⟩

/-- C2 (amended): for floating-point operands, `less_than_or_equal_compare`
equals `less_than_compare OR equality_compare` under the same epsilon for
all non-NaN operands whose left-hand side is not `+Infinity`; with a
`+Infinity` left-hand side the equivalence can fail (e.g. both operands
`+Infinity`). -/
theorem C2_le_equiv (l r : EF) (eps : Epsilon)
    (hl : l.isnan = false) (hr : r.isnan = false) (hpl : l ≠ .inf false) :
    less_than_or_equal_compare (.floatV l) (.floatV r) eps
      = (less_than_compare (.floatV l) (.floatV r) eps
         || equality_compare (.floatV l) (.floatV r) eps) := by
  cases l with
  | nan => simp [EF.isnan] at hl
  | inf s =>
    cases s with
    | false => exact absurd rfl hpl
    | true => rfl
  | fin a =>
    cases r with
    | nan => simp [EF.isnan] at hr
    | inf t =>
      cases t with
      | true => rfl
      | false =>
        show leFloat (.fin a) (.inf false) eps
          = (ltFloat (.fin a) (.inf false) eps || eqFloat (.fin a) (.inf false) eps)
        cases hE : eps.epsilon (.fin a) (.inf false) with
        | nan =>
          simp [leFloat, ltFloat, eqFloat, hE, EF.isinf, EF.isnan, EF.signbit, EF.sub,
            EF.add, EF.neg, EF.lt, safe_float_equality, EF.ge, EF.le]
        | inf u =>
          cases u <;>
            simp [leFloat, ltFloat, eqFloat, hE, EF.isinf, EF.isnan, EF.signbit, EF.sub,
              EF.add, EF.neg, EF.lt, safe_float_equality, EF.ge, EF.le]
        | fin q =>
          simp [leFloat, ltFloat, eqFloat, hE, EF.isinf, EF.isnan, EF.signbit, EF.sub,
            EF.add, EF.neg, EF.lt, safe_float_equality, EF.ge, EF.le]
    | fin b =>
      show leFloat (.fin a) (.fin b) eps
        = (ltFloat (.fin a) (.fin b) eps || eqFloat (.fin a) (.fin b) eps)
      simp [leFloat, ltFloat, eqFloat, EF.isinf, EF.isnan, EF.signbit]

theorem C2_le_equiv_witness :
    ((EF.fin 0).isnan = false ∧ (EF.fin 1).isnan = false ∧ EF.fin 0 ≠ EF.inf false) ∧
    less_than_or_equal_compare (.floatV (.fin 0)) (.floatV (.fin 1)) epsAbsSmall
      = (less_than_compare (.floatV (.fin 0)) (.floatV (.fin 1)) epsAbsSmall
         || equality_compare (.floatV (.fin 0)) (.floatV (.fin 1)) epsAbsSmall) :=
  ⟨⟨rfl, rfl, by simp⟩,
   C2_le_equiv (.fin 0) (.fin 1) epsAbsSmall rfl rfl (by simp)⟩

/-- C10 counterexample: with an epsilon whose magnitude is NaN, both
`equality_compare` and `inequality_compare` return `false` on `0` and `1`,
so `inequality_compare` is not the boolean negation of
`equality_compare` for every epsilon. -/
theorem C10_counterexample :
    inequality_compare (.floatV (.fin 0)) (.floatV (.fin 1)) epsNaN = false ∧
    equality_compare (.floatV (.fin 0)) (.floatV (.fin 1)) epsNaN = false := by
  norm_num [inequality_compare, equality_compare, neFloat, eqFloat, safe_float_inequality,
    safe_float_equality, EF.sub, EF.add, EF.neg, EF.ofRat, Fmax, EF.isinf, EF.isnan,
    detailAbs, EF.signbit, EF.gt, EF.lt, EF.le, epsNaN, Epsilon.epsilon]

end HyperionCompare
